import Mathlib

/-!
Shallow embedding of the message-arbitration core of a browser extension
(`src/background.ts`): the decision engine (`createPopup` and the three
kind-specific evaluators), the correlation registry (`messagePorts` /
`approvedMessages`), the response router (the `onMessage` listener), the
intake path (`processMessage`) and the popup sizing/positioning function
(`getPopupPositions`).

External collaborators (settings storage, payload decoders) are passed in
as parameters of an `Env` record, mirroring how the source consumes them
through narrow async interfaces.  JavaScript strings are Lean `String`s,
JS numbers used for window geometry are rationals (window geometry is
integer-valued in practice, and for such inputs multiplication by the
literals `0.5` and `0.2` followed by `Math.round` agrees with exact
rational arithmetic), and the JS object `messagePorts` is an association
list with overwrite/delete semantics.
-/

namespace BrowserExt

/-- Modelled from the spec: `lib/constants` (not under `src/`) defines the
request-type tags carried in `message.data.type`; only their distinctness
is relied upon. -/
def RequestType.TRANSACTION : String := "transaction"

/-- Modelled from the spec: the typed-data signature request tag. -/
def RequestType.TYPED_SIGNATURE : String := "typed-signature"

/-- Modelled from the spec: the untyped (hash) signature request tag. -/
def RequestType.UNTYPED_SIGNATURE : String := "untyped-signature"

/-- Modelled from the spec: `lib/constants` warning-kind tag for allowance
warnings, used as the `type` query parameter. -/
def WarningType.ALLOWANCE : String := "allowance"

/-- Modelled from the spec: warning-kind tag for NFT listing warnings. -/
def WarningType.LISTING : String := "listing"

/-- Modelled from the spec: warning-kind tag for hash-signature warnings. -/
def WarningType.HASH : String := "hash"

/-- Opaque raw transaction payload; only decoders look inside it. -/
structure Transaction where
  blob : String
deriving DecidableEq

/-- Typed-data document: the dispatcher reads `primaryType`, decoders may
look at the rest (kept opaque). -/
structure TypedData where
  primaryType : String
  blob : String
deriving DecidableEq

/-- Decoded allowance descriptor returned by `decodeApproval` / `decodePermit`. -/
structure Allowance where
  asset : String
  spender : String
deriving DecidableEq

/-- Decoded NFT listing legs returned inside `decodeNftListing`. -/
structure Listing where
  offer : List String
  consideration : List String
deriving DecidableEq

/-- Result shape of `decodeNftListing`: always a platform name, and a
listing when one was recognised. -/
structure NftDecodeResult where
  platform : String
  listing : Option Listing
deriving DecidableEq

/-- `message.data` of an inbound request.  Optional JS fields are `Option`;
the optional `bypassed` flag is collapsed to `Bool` (absent = `false`,
matching its only truthiness use). -/
structure MessageData where
  type : String
  chainId : Nat
  hostname : String
  bypassed : Bool
  transaction : Option Transaction
  typedData : Option TypedData
  message : Option String
deriving DecidableEq

/-- An inbound request message. -/
structure Message where
  requestId : String
  data : MessageData
deriving DecidableEq

/-- `MessageResponse` from `lib/types`: both the decision-surface response
and the outbound decision message have this shape. -/
structure MessageResponse where
  requestId : String
  data : Bool
deriving DecidableEq

/-- A communication channel (a `Browser.Runtime.Port`), identified opaquely. -/
abbrev Port := Nat

/-- External collaborators consumed by the decision engine: the three
awaited settings values and the three decoders, plus the three hostname
allow-lists from `lib/constants` (whose concrete contents are not under
`src/`, so they are parameters here). -/
structure Env where
  warnOnApproval : Bool
  warnOnListing : Bool
  warnOnHashSignatures : Bool
  allowanceAllowList : List String
  nftListingAllowList : List String
  hashSignatureAllowList : List String
  decodeApproval : Transaction → Option Allowance
  decodePermit : TypedData → Option Allowance
  decodeNftListing : TypedData → NftDecodeResult

/-- Process-wide mutable state of the background script: the correlation
registry `messagePorts` and the approved-request list `approvedMessages`. -/
structure BgState where
  messagePorts : List (String × Port)
  approvedMessages : List String
deriving DecidableEq

/-- `messagePorts[id]`: first binding for the key, if any. -/
def portLookup (l : List (String × Port)) (k : String) : Option Port :=
  (l.find? (fun p => p.1 == k)).map Prod.snd

/-- `messagePorts[id] = port`: overwrite semantics of JS object assignment. -/
def portInsert (l : List (String × Port)) (k : String) (v : Port) :
    List (String × Port) :=
  (k, v) :: l.filter (fun p => p.1 != k)

/-- `delete messagePorts[id]`. -/
def portDelete (l : List (String × Port)) (k : String) : List (String × Port) :=
  l.filter (fun p => p.1 != k)

/-- `String(x)` applied to a possibly-absent JS string. -/
def jsStringOf : Option String → String
  | some s => s
  | none => "undefined"

/-- `replace(/0x/, '')` on a character list: removes the first occurrence
of the substring `0x` anywhere in the string (the regex is unanchored and
non-global). -/
def removeFirst0x : List Char → List Char
  | [] => []
  | '0' :: 'x' :: rest => rest
  | c :: rest => c :: removeFirst0x rest

/-- `String(signMessage).replace(/0x/, '')`. -/
def stripFirst0x (s : String) : String :=
  String.mk (removeFirst0x s.data)

/-- Stand-in for `JSON.stringify(listing)`; only the presence of the
`listing` query parameter matters to the properties proved here. -/
def serializeListing (l : Listing) : String :=
  toString l.offer ++ toString l.consideration

/-- A created confirmation popup, as observed through the query string
handed to `createConfirmationPopup` together with its sizing inputs. -/
structure PopupRequest where
  queryParams : List (String × String)
  contentLines : Nat
  bypassed : Bool
deriving DecidableEq

/-- `createAllowancePopup`: gate on the setting, the allow-list and the
approved list, decode (by request type), and describe the popup.  `some`
is the source's `return true` (popup created), `none` its `return false`. -/
def createAllowancePopup (env : Env) (approvedMessages : List String)
    (m : Message) : Option PopupRequest :=
  if !env.warnOnApproval then none
  else if env.allowanceAllowList.contains m.data.hostname then none
  else if approvedMessages.contains m.requestId then none
  else
    match
      (if m.data.type == RequestType.TRANSACTION then
        m.data.transaction.bind env.decodeApproval
      else
        m.data.typedData.bind env.decodePermit) with
    | none => none
    | some allowance =>
      some
        { queryParams :=
            [("type", WarningType.ALLOWANCE), ("requestId", m.requestId),
             ("asset", allowance.asset), ("spender", allowance.spender),
             ("chainId", toString m.data.chainId),
             ("bypassed", toString m.data.bypassed),
             ("hostname", m.data.hostname)],
          contentLines := 2,
          bypassed := m.data.bypassed }

/-- `createNftListingPopup`: gate, decode the listing, and describe the
popup with one content line per offer or consideration leg. -/
def createNftListingPopup (env : Env) (approvedMessages : List String)
    (m : Message) : Option PopupRequest :=
  if !env.warnOnListing then none
  else if env.nftListingAllowList.contains m.data.hostname then none
  else if approvedMessages.contains m.requestId then none
  else
    match m.data.typedData with
    | none => none
    | some td =>
      match (env.decodeNftListing td).listing with
      | none => none
      | some listing =>
        some
          { queryParams :=
              [("type", WarningType.LISTING), ("requestId", m.requestId),
               ("listing", serializeListing listing),
               ("platform", (env.decodeNftListing td).platform),
               ("chainId", toString m.data.chainId),
               ("bypassed", toString m.data.bypassed),
               ("hostname", m.data.hostname)],
            contentLines := listing.offer.length + listing.consideration.length,
            bypassed := m.data.bypassed }

/-- `createHashSignaturePopup`: gate, then prompt only when the message
with the first `0x` removed is exactly 64 characters long.  Its query
string carries no `chainId` parameter. -/
def createHashSignaturePopup (env : Env) (approvedMessages : List String)
    (m : Message) : Option PopupRequest :=
  if !env.warnOnHashSignatures then none
  else if env.hashSignatureAllowList.contains m.data.hostname then none
  else if approvedMessages.contains m.requestId then none
  else if (stripFirst0x (jsStringOf m.data.message)).length != 64 then none
  else
    some
      { queryParams :=
          [("type", WarningType.HASH), ("requestId", m.requestId),
           ("bypassed", toString m.data.bypassed),
           ("hostname", m.data.hostname)],
        contentLines := 0,
        bypassed := m.data.bypassed }

/-- Modelled from the spec: `isTransactionMessage` from `lib/types` (not
under `src/`) recognises a request by its `type` tag. -/
def isTransactionMessage (m : Message) : Bool :=
  m.data.type == RequestType.TRANSACTION

/-- Modelled from the spec: `isTypedSignatureMessage` from `lib/types`
recognises a typed-data signature request by its `type` tag. -/
def isTypedSignatureMessage (m : Message) : Bool :=
  m.data.type == RequestType.TYPED_SIGNATURE

/-- `message.data.typedData.primaryType === 'Permit'` (false when no
typed-data document is present). -/
def primaryTypeIsPermit (m : Message) : Bool :=
  match m.data.typedData with
  | some td => td.primaryType == "Permit"
  | none => false

/-- The three evaluation paths a request can be dispatched to. -/
inductive DispatchPath where
  | allowance
  | listing
  | hash
deriving DecidableEq

/-- Which path `createPopup` routes a message through. -/
def dispatchPath (m : Message) : DispatchPath :=
  if isTransactionMessage m then .allowance
  else if isTypedSignatureMessage m then
    if primaryTypeIsPermit m then .allowance else .listing
  else .hash

/-- `createPopup`: dispatch on the message type, with typed-data requests
split on `primaryType === 'Permit'`. -/
def createPopup (env : Env) (approvedMessages : List String) (m : Message) :
    Option PopupRequest :=
  if isTransactionMessage m then
    createAllowancePopup env approvedMessages m
  else if isTypedSignatureMessage m then
    if primaryTypeIsPermit m then createAllowancePopup env approvedMessages m
    else createNftListingPopup env approvedMessages m
  else
    createHashSignaturePopup env approvedMessages m

/-- Everything `processMessage` does: the updated state, the outbound
decision message posted on the carrying channel (if any), and the popup
raised by the `createPopup` call (if any). -/
structure ProcessResult where
  state : BgState
  outbound : Option MessageResponse
  popup : Option PopupRequest
deriving DecidableEq

/-- `processMessage`: evaluate (and possibly raise a popup) first; for
bypassed messages return no response; otherwise either respond positively
at once or register the channel for the eventual routed decision. -/
def processMessage (env : Env) (st : BgState) (m : Message)
    (remotePort : Port) : ProcessResult :=
  let popupCreated := createPopup env st.approvedMessages m
  if m.data.bypassed then
    { state := st, outbound := none, popup := popupCreated }
  else
    match popupCreated with
    | none =>
      { state := st, outbound := some ⟨m.requestId, true⟩, popup := none }
    | some p =>
      { state :=
          { st with
            messagePorts := portInsert st.messagePorts m.requestId remotePort },
        outbound := none,
        popup := some p }

/-- The `Browser.runtime.onMessage` listener (response router): record the
approval first when `response.data` is true, then deliver the response to
the registered channel, if any, retiring the registry entry. -/
def handleResponse (st : BgState) (response : MessageResponse) :
    BgState × Option (Port × MessageResponse) :=
  let st1 :=
    if response.data then
      { st with approvedMessages := st.approvedMessages ++ [response.requestId] }
    else st
  match portLookup st.messagePorts response.requestId with
  | some port =>
    ({ st1 with messagePorts := portDelete st1.messagePorts response.requestId },
     some (port, response))
  | none => (st1, none)

/-- Reference window geometry (`Browser.Windows.Window` fields). -/
structure WindowGeom where
  left : ℚ
  top : ℚ
  width : ℚ
  height : ℚ
deriving DecidableEq

/-- Geometry passed to `Browser.windows.create`. -/
structure PopupPositions where
  width : ℚ
  height : ℚ
  left : ℚ
  top : ℚ
deriving DecidableEq

/-- `Math.round` on the (integer-geometry-exact) rational model of JS
numbers: round half toward positive infinity. -/
def jsRound (x : ℚ) : ℤ :=
  ⌊x + 1 / 2⌋

/-- `getPopupPositions`: fixed width, content-dependent height, centred
horizontally and placed in the top fifth vertically. -/
def getPopupPositions (window : WindowGeom) (contentLines : Nat)
    (bypassed : Bool) : PopupPositions :=
  let width : ℚ := 480
  let height : ℚ := 320 + (contentLines : ℚ) * 24 + (if bypassed then 24 else 0)
  let left : ℚ := window.left + (jsRound ((window.width - width) * (1 / 2)) : ℤ)
  let top : ℚ := window.top + (jsRound ((window.height - height) * (1 / 5)) : ℤ)
  { width := width, height := height, left := left, top := top }

/-- A definition following the spec's words, for comparison with the
source's `stripFirst0x`: strip an optional `0x` prefix (and nothing
elsewhere in the string). -/
def specPrefixStrip (s : String) : String :=
  match s.data with
  | '0' :: 'x' :: rest => String.mk rest
  | _ => s

end BrowserExt

namespace BrowserExt

/-- Deleting a key from the registry makes lookup of that key fail. -/
theorem portLookup_portDelete_self (l : List (String × Port)) (k : String) :
    portLookup (portDelete l k) k = none := by
  simp only [portLookup, portDelete, Option.map_eq_none', List.find?_eq_none,
    List.mem_filter, bne_iff_ne, ne_eq, beq_iff_eq, and_imp]
  intro x _ hne
  simp [hne]

/-- After a resolution, no channel remains registered under the resolved id. -/
theorem handleResponse_lookup_after (st : BgState) (r : MessageResponse) :
    portLookup (handleResponse st r).1.messagePorts r.requestId = none := by
  unfold handleResponse
  cases h : portLookup st.messagePorts r.requestId with
  | none =>
    simp only [h]
    split <;> simpa using h
  | some p =>
    simp only [h]
    split <;> exact portLookup_portDelete_self _ _

/-- A resolution with no registered channel delivers nothing. -/
theorem handleResponse_not_found (st : BgState) (r : MessageResponse)
    (h : portLookup st.messagePorts r.requestId = none) :
    (handleResponse st r).2 = none := by
  unfold handleResponse
  simp only [h]

/-- A resolution with a registered channel delivers the response to it. -/
theorem handleResponse_found (st : BgState) (r : MessageResponse) (p : Port)
    (h : portLookup st.messagePorts r.requestId = some p) :
    (handleResponse st r).2 = some (p, r) := by
  unfold handleResponse
  simp only [h]

/-- An approving resolution appends the id to the approved-request list,
whether or not a channel was found. -/
theorem handleResponse_approved (st : BgState) (r : MessageResponse)
    (h : r.data = true) :
    (handleResponse st r).1.approvedMessages = st.approvedMessages ++ [r.requestId] := by
  unfold handleResponse
  cases hl : portLookup st.messagePorts r.requestId <;> simp [h]

/-- C1: resolving the same request id twice delivers to the originating
channel at most once — the first resolution with a registered channel
delivers the response and retires the registry entry, and any later
resolution for that id delivers nothing — while every resolution with
`approved = true` (channel found or not) records the id in the
approved-request list. -/
theorem C1_resolve_at_most_once (st : BgState) (r r' : MessageResponse) (p : Port)
    (hid : r'.requestId = r.requestId)
    (hp : portLookup st.messagePorts r.requestId = some p) :
    (handleResponse st r).2 = some (p, r)
    ∧ portLookup (handleResponse st r).1.messagePorts r.requestId = none
    ∧ (handleResponse (handleResponse st r).1 r').2 = none
    ∧ (r.data = true →
        (handleResponse st r).1.approvedMessages.contains r.requestId = true)
    ∧ (r'.data = true →
        (handleResponse (handleResponse st r).1 r').1.approvedMessages.contains
          r'.requestId = true) := by
  refine ⟨handleResponse_found st r p hp, handleResponse_lookup_after st r, ?_, ?_, ?_⟩
  · apply handleResponse_not_found
    rw [hid]
    exact handleResponse_lookup_after st r
  · intro hd
    rw [handleResponse_approved st r hd]
    simp
  · intro hd
    rw [handleResponse_approved _ r' hd]
    simp

/-- A registry state with one channel (port 7) waiting on `req-hash`. -/
def stC1 : BgState := ⟨[("req-hash", 7)], []⟩

/-- An approving decision-surface response for `req-hash`. -/
def rTrue : MessageResponse := ⟨"req-hash", true⟩

/-- C1 witness: both hypotheses hold and the conclusion follows at a
concrete one-entry registry resolved twice with `approved = true`. -/
theorem C1_resolve_at_most_once_witness :
    rTrue.requestId = rTrue.requestId
    ∧ portLookup stC1.messagePorts rTrue.requestId = some 7
    ∧ ((handleResponse stC1 rTrue).2 = some (7, rTrue)
      ∧ portLookup (handleResponse stC1 rTrue).1.messagePorts rTrue.requestId = none
      ∧ (handleResponse (handleResponse stC1 rTrue).1 rTrue).2 = none
      ∧ (rTrue.data = true →
          (handleResponse stC1 rTrue).1.approvedMessages.contains rTrue.requestId = true)
      ∧ (rTrue.data = true →
          (handleResponse (handleResponse stC1 rTrue).1 rTrue).1.approvedMessages.contains
            rTrue.requestId = true)) :=
  ⟨rfl, by decide, C1_resolve_at_most_once stC1 rTrue rTrue 7 rfl (by decide)⟩

/-- A two-offer, three-consideration listing, as a concrete decoder output. -/
def listing23 : Listing := ⟨["offer1", "offer2"], ["cons1", "cons2", "cons3"]⟩

/-- A concrete environment: every warning enabled, empty allow-lists, and
decoders that always find something notable. -/
def envAll : Env :=
  { warnOnApproval := true, warnOnListing := true, warnOnHashSignatures := true,
    allowanceAllowList := [], nftListingAllowList := [], hashSignatureAllowList := [],
    decodeApproval := fun _ => some ⟨"0xToken", "0xSpender"⟩,
    decodePermit := fun _ => some ⟨"0xToken", "0xSpender"⟩,
    decodeNftListing := fun _ => ⟨"OpenSea", some listing23⟩ }

/-- An untyped signature request whose message is `0x` followed by 64
characters. -/
def msgHash64 : Message :=
  ⟨"req-hash",
   ⟨RequestType.UNTYPED_SIGNATURE, 1, "app.example", false, none, none,
    some ("0x" ++ String.mk (List.replicate 64 'a'))⟩⟩

/-- The same hash-like request with `bypassed = true`. -/
def msgHash64Byp : Message :=
  ⟨"req-hash-byp",
   ⟨RequestType.UNTYPED_SIGNATURE, 1, "app.example", true, none, none,
    some ("0x" ++ String.mk (List.replicate 64 'a'))⟩⟩

/-- An untyped signature request of 66 characters whose only `0x` occurs in
the middle of the message, not as a prefix. -/
def msgHashInterior : Message :=
  ⟨"req-hash-mid",
   ⟨RequestType.UNTYPED_SIGNATURE, 1, "app.example", false, none, none,
    some ("ab0x" ++ String.mk (List.replicate 62 'c'))⟩⟩

/-- C2 counterexample: a bypassed request for which intake does evaluate
and does raise a popup — `createPopup` runs before the `bypassed` check,
so evaluation is not skipped for bypassed requests. -/
theorem C2_counterexample :
    msgHash64Byp.data.bypassed = true
    ∧ (processMessage envAll ⟨[], []⟩ msgHash64Byp 0).popup.isSome = true := by
  constructor <;> decide

/-- C2 (amended): for every request with `bypassed = true`, intake still
performs warning evaluation exactly as usual (and may raise a popup); what
is skipped is only the reply — no outbound decision message is sent and
the state is unchanged. -/
theorem C2_bypassed_still_evaluated (env : Env) (st : BgState) (m : Message)
    (port : Port) (hb : m.data.bypassed = true) :
    processMessage env st m port =
      { state := st, outbound := none,
        popup := createPopup env st.approvedMessages m } := by
  simp [processMessage, hb]

/-- C2 witness: the amended statement at a concrete bypassed request. -/
theorem C2_bypassed_still_evaluated_witness :
    msgHash64Byp.data.bypassed = true
    ∧ processMessage envAll ⟨[], []⟩ msgHash64Byp 0 =
        { state := ⟨[], []⟩, outbound := none,
          popup := createPopup envAll (BgState.mk [] []).approvedMessages msgHash64Byp } :=
  ⟨rfl, C2_bypassed_still_evaluated envAll ⟨[], []⟩ msgHash64Byp 0 rfl⟩

/-- C3: for every request with `bypassed = true`, no outbound decision
message is sent on the carrying channel and no correlation-registry entry
is created for its request id. -/
theorem C3_bypassed_no_outbound_no_registration (env : Env) (st : BgState)
    (m : Message) (port : Port) (hb : m.data.bypassed = true) :
    (processMessage env st m port).outbound = none
    ∧ (processMessage env st m port).state.messagePorts = st.messagePorts
    ∧ (portLookup st.messagePorts m.requestId = none →
        portLookup (processMessage env st m port).state.messagePorts m.requestId = none) := by
  simp [processMessage, hb]

/-- C3 witness: the statement at a concrete bypassed request and empty state. -/
theorem C3_bypassed_no_outbound_no_registration_witness :
    msgHash64Byp.data.bypassed = true
    ∧ ((processMessage envAll ⟨[], []⟩ msgHash64Byp 0).outbound = none
      ∧ (processMessage envAll ⟨[], []⟩ msgHash64Byp 0).state.messagePorts =
          (BgState.mk [] []).messagePorts
      ∧ (portLookup (BgState.mk [] []).messagePorts msgHash64Byp.requestId = none →
          portLookup (processMessage envAll ⟨[], []⟩ msgHash64Byp 0).state.messagePorts
            msgHash64Byp.requestId = none)) :=
  ⟨rfl, C3_bypassed_no_outbound_no_registration envAll ⟨[], []⟩ msgHash64Byp 0 rfl⟩

end BrowserExt
namespace BrowserExt

/-- C4 counterexample: a 66-character message whose only `0x` occurs in the
middle still prompts (the source strips the first `0x` occurrence anywhere,
not only a prefix), so under satisfied gating the prompt is not equivalent
to the prefix-stripped length being 64. -/
theorem C4_counterexample :
    ((createHashSignaturePopup envAll [] msgHashInterior).isSome = true
      ∧ (specPrefixStrip (jsStringOf msgHashInterior.data.message)).length = 66)
    ∧ envAll.warnOnHashSignatures = true
    ∧ envAll.hashSignatureAllowList.contains msgHashInterior.data.hostname = false
    ∧ ([] : List String).contains msgHashInterior.requestId = false := by
  refine ⟨⟨?_, ?_⟩, ?_, ?_, ?_⟩ <;> decide

/-- C4 (amended): under the common gating (setting enabled, hostname not
allow-listed, request id not approved), an untyped signature request
prompts if and only if its message with the FIRST occurrence of the
substring `0x` removed — anywhere in the string, not only as a prefix —
is exactly 64 characters long. -/
theorem C4_hash_prompt_iff_strip64 (env : Env) (approved : List String) (m : Message)
    (hw : env.warnOnHashSignatures = true)
    (hal : env.hashSignatureAllowList.contains m.data.hostname = false)
    (hap : approved.contains m.requestId = false) :
    (createHashSignaturePopup env approved m).isSome = true
      ↔ (stripFirst0x (jsStringOf m.data.message)).length = 64 := by
  have hal2 : m.data.hostname ∉ env.hashSignatureAllowList := by simpa using hal
  have hap2 : m.requestId ∉ approved := by simpa using hap
  unfold createHashSignaturePopup
  by_cases hl : (stripFirst0x (jsStringOf m.data.message)).length = 64 <;>
    simp [hw, hal2, hap2, hl]

/-- C4 witness: the amended equivalence at a concrete `0x`-prefixed
64-character message with all gates open. -/
theorem C4_witness :
    envAll.warnOnHashSignatures = true
    ∧ envAll.hashSignatureAllowList.contains msgHash64.data.hostname = false
    ∧ ([] : List String).contains msgHash64.requestId = false
    ∧ ((createHashSignaturePopup envAll [] msgHash64).isSome = true
        ↔ (stripFirst0x (jsStringOf msgHash64.data.message)).length = 64) :=
  ⟨rfl, by decide, rfl,
   C4_hash_prompt_iff_strip64 envAll [] msgHash64 rfl (by decide) rfl⟩

/-- A typed-signature message is not a transaction message (distinct tags). -/
theorem typed_not_transaction (m : Message)
    (h : isTypedSignatureMessage m = true) : isTransactionMessage m = false := by
  simp only [isTypedSignatureMessage, beq_iff_eq] at h
  simp [isTransactionMessage, h, RequestType.TYPED_SIGNATURE, RequestType.TRANSACTION]

/-- C5: a typed-data signature request is dispatched to the allowance path
if and only if its primary type is exactly `"Permit"`; every other
typed-data request goes to the listing path regardless of its structure,
and every non-transaction, non-typed-data request goes to the hash path. -/
theorem C5_dispatch_permit (env : Env) (approved : List String) (m : Message)
    (td : TypedData) (hty : isTypedSignatureMessage m = true)
    (htd : m.data.typedData = some td) :
    (dispatchPath m = DispatchPath.allowance ↔ td.primaryType = "Permit")
    ∧ (td.primaryType = "Permit" →
        createPopup env approved m = createAllowancePopup env approved m)
    ∧ (td.primaryType ≠ "Permit" →
        dispatchPath m = DispatchPath.listing
        ∧ createPopup env approved m = createNftListingPopup env approved m)
    ∧ (∀ m2 : Message, isTransactionMessage m2 = false →
        isTypedSignatureMessage m2 = false → dispatchPath m2 = DispatchPath.hash) := by
  have htr := typed_not_transaction m hty
  have hpt : primaryTypeIsPermit m = (td.primaryType == "Permit") := by
    simp [primaryTypeIsPermit, htd]
  by_cases hperm : td.primaryType = "Permit"
  · refine ⟨?_, ?_, ?_, ?_⟩
    · simp [dispatchPath, htr, hty, hpt, hperm]
    · intro _
      simp [createPopup, htr, hty, hpt, hperm]
    · intro hne
      exact absurd hperm hne
    · intro m2 h1 h2
      simp [dispatchPath, h1, h2]
  · refine ⟨?_, ?_, ?_, ?_⟩
    · simp [dispatchPath, htr, hty, hpt, hperm]
    · intro hc
      exact absurd hc hperm
    · intro _
      constructor
      · simp [dispatchPath, htr, hty, hpt, hperm]
      · simp [createPopup, htr, hty, hpt, hperm]
    · intro m2 h1 h2
      simp [dispatchPath, h1, h2]

/-- A typed-data document with primary type `Permit`. -/
def tdPermit : TypedData := ⟨"Permit", "permit-payload"⟩

/-- A typed-data signature request carrying `tdPermit`. -/
def msgPermit : Message :=
  ⟨"req-permit",
   ⟨RequestType.TYPED_SIGNATURE, 1, "app.example", false, none, some tdPermit, none⟩⟩

/-- C5 witness: the dispatch characterisation at a concrete Permit-typed
request. -/
theorem C5_witness :
    isTypedSignatureMessage msgPermit = true
    ∧ msgPermit.data.typedData = some tdPermit
    ∧ ((dispatchPath msgPermit = DispatchPath.allowance ↔ tdPermit.primaryType = "Permit")
      ∧ (tdPermit.primaryType = "Permit" →
          createPopup envAll [] msgPermit = createAllowancePopup envAll [] msgPermit)
      ∧ (tdPermit.primaryType ≠ "Permit" →
          dispatchPath msgPermit = DispatchPath.listing
          ∧ createPopup envAll [] msgPermit = createNftListingPopup envAll [] msgPermit)
      ∧ (∀ m2 : Message, isTransactionMessage m2 = false →
          isTypedSignatureMessage m2 = false → dispatchPath m2 = DispatchPath.hash)) :=
  ⟨rfl, rfl, C5_dispatch_permit envAll [] msgPermit tdPermit rfl rfl⟩

/-- C6: a non-bypassed request whose id is already in the approved-request
list is never prompted, on any of the three evaluation paths and hence
under the dispatcher, regardless of settings, hostname or payload. -/
theorem C6_approved_no_prompt (env : Env) (approved : List String) (m : Message)
    (_hb : m.data.bypassed = false)
    (hap : approved.contains m.requestId = true) :
    createAllowancePopup env approved m = none
    ∧ createNftListingPopup env approved m = none
    ∧ createHashSignaturePopup env approved m = none
    ∧ createPopup env approved m = none := by
  have hap2 : m.requestId ∈ approved := by simpa using hap
  have hA : createAllowancePopup env approved m = none := by
    unfold createAllowancePopup
    by_cases h1 : env.warnOnApproval <;>
      by_cases h2 : m.data.hostname ∈ env.allowanceAllowList <;>
        simp [h1, h2, hap2]
  have hL : createNftListingPopup env approved m = none := by
    unfold createNftListingPopup
    by_cases h1 : env.warnOnListing <;>
      by_cases h2 : m.data.hostname ∈ env.nftListingAllowList <;>
        simp [h1, h2, hap2]
  have hH : createHashSignaturePopup env approved m = none := by
    unfold createHashSignaturePopup
    by_cases h1 : env.warnOnHashSignatures <;>
      by_cases h2 : m.data.hostname ∈ env.hashSignatureAllowList <;>
        simp [h1, h2, hap2]
  refine ⟨hA, hL, hH, ?_⟩
  unfold createPopup
  split
  · exact hA
  · split
    · split
      · exact hA
      · exact hL
    · exact hH

/-- C6 witness: no prompt for a concrete already-approved hash request. -/
theorem C6_witness :
    msgHash64.data.bypassed = false
    ∧ (["req-hash"] : List String).contains msgHash64.requestId = true
    ∧ (createAllowancePopup envAll ["req-hash"] msgHash64 = none
      ∧ createNftListingPopup envAll ["req-hash"] msgHash64 = none
      ∧ createHashSignaturePopup envAll ["req-hash"] msgHash64 = none
      ∧ createPopup envAll ["req-hash"] msgHash64 = none) :=
  ⟨rfl, by decide, C6_approved_no_prompt envAll ["req-hash"] msgHash64 rfl (by decide)⟩

end BrowserExt
namespace BrowserExt

/-- Shape of any popup created by the allowance evaluator: two content
lines and the fixed allowance query-parameter keys. -/
theorem createAllowancePopup_some (env : Env) (approved : List String)
    (m : Message) (p : PopupRequest)
    (h : createAllowancePopup env approved m = some p) :
    p.contentLines = 2
    ∧ p.queryParams.map Prod.fst =
        ["type", "requestId", "asset", "spender", "chainId", "bypassed", "hostname"]
    ∧ p.bypassed = m.data.bypassed := by
  unfold createAllowancePopup at h
  repeat' split at h
  all_goals simp_all
  all_goals subst h
  all_goals simp_all

/-- Shape of any popup created by the listing evaluator: one content line
per offer or consideration leg, and the fixed listing query keys. -/
theorem createNftListingPopup_some (env : Env) (approved : List String)
    (m : Message) (td : TypedData) (listing : Listing) (p : PopupRequest)
    (htd : m.data.typedData = some td)
    (hdec : (env.decodeNftListing td).listing = some listing)
    (h : createNftListingPopup env approved m = some p) :
    p.contentLines = listing.offer.length + listing.consideration.length
    ∧ p.queryParams.map Prod.fst =
        ["type", "requestId", "listing", "platform", "chainId", "bypassed", "hostname"]
    ∧ p.bypassed = m.data.bypassed := by
  unfold createNftListingPopup at h
  repeat' split at h
  all_goals simp_all
  all_goals subst h
  all_goals simp_all

/-- Shape of any popup created by the hash evaluator: zero content lines
and a query string without any `chainId` key. -/
theorem createHashSignaturePopup_some (env : Env) (approved : List String)
    (m : Message) (p : PopupRequest)
    (h : createHashSignaturePopup env approved m = some p) :
    p.contentLines = 0
    ∧ p.queryParams.map Prod.fst = ["type", "requestId", "bypassed", "hostname"]
    ∧ p.bypassed = m.data.bypassed := by
  unfold createHashSignaturePopup at h
  repeat' split at h
  all_goals simp_all
  all_goals subst h
  all_goals simp_all

end BrowserExt
namespace BrowserExt

/-- C7: popup geometry is width 480, height 320 + 24 per content line
(+24 when bypassed), horizontally centred and vertically at the top fifth
of the reference window via round-half-up, and on the reference window
(100, 50, 1000, 800) with 2 content lines it is (480, 368, 360, 136). -/
theorem C7_popup_positions (w : WindowGeom) (cl : Nat) (b : Bool) :
    (getPopupPositions w cl b).width = 480
    ∧ (getPopupPositions w cl b).height =
        320 + 24 * (cl : ℚ) + (if b then 24 else 0)
    ∧ (getPopupPositions w cl b).left =
        w.left + (jsRound ((w.width - 480) * (1 / 2)) : ℤ)
    ∧ (getPopupPositions w cl b).top =
        w.top + (jsRound ((w.height - (getPopupPositions w cl b).height) * (1 / 5)) : ℤ)
    ∧ getPopupPositions ⟨100, 50, 1000, 800⟩ 2 false = ⟨480, 368, 360, 136⟩ := by
  refine ⟨rfl, ?_, rfl, rfl, ?_⟩
  · simp only [getPopupPositions]
    ring
  · simp only [getPopupPositions, jsRound]
    norm_num

/-- A typed-data document with a primary type other than `Permit`. -/
def tdOrder : TypedData := ⟨"Order", "order-payload"⟩

/-- A typed-data signature request carrying `tdOrder`. -/
def msgOrder : Message :=
  ⟨"req-order",
   ⟨RequestType.TYPED_SIGNATURE, 1, "app.example", false, none, some tdOrder, none⟩⟩

/-- A message of an unrecognised shape: unknown type tag, no payload. -/
def msgGarbage : Message :=
  ⟨"req-x", ⟨"unknown-shape", 0, "site.example", false, none, none, none⟩⟩

/-- The popup the allowance evaluator creates for `msgPermit` under `envAll`. -/
def popA : PopupRequest := (createAllowancePopup envAll [] msgPermit).getD ⟨[], 0, false⟩

/-- The popup the listing evaluator creates for `msgOrder` under `envAll`. -/
def popL : PopupRequest := (createNftListingPopup envAll [] msgOrder).getD ⟨[], 0, false⟩

/-- The popup the hash evaluator creates for `msgHash64` under `envAll`. -/
def popH : PopupRequest := (createHashSignaturePopup envAll [] msgHash64).getD ⟨[], 0, false⟩

/-- C8: every allowance popup has 2 content lines, every listing popup has
one per offer or consideration leg (2 offers and 3 considerations give 5),
every hash popup has 0, and 5 content lines give popup height 440 when not
bypassed. -/
theorem C8_content_lines (env : Env) (approved : List String)
    (mA mL mH : Message) (td : TypedData) (listing : Listing)
    (pA pL pH : PopupRequest) (w : WindowGeom)
    (hA : createAllowancePopup env approved mA = some pA)
    (htd : mL.data.typedData = some td)
    (hdec : (env.decodeNftListing td).listing = some listing)
    (hL : createNftListingPopup env approved mL = some pL)
    (hH : createHashSignaturePopup env approved mH = some pH) :
    pA.contentLines = 2
    ∧ pL.contentLines = listing.offer.length + listing.consideration.length
    ∧ pH.contentLines = 0
    ∧ (listing.offer.length = 2 ∧ listing.consideration.length = 3 →
        pL.contentLines = 5)
    ∧ (getPopupPositions w 5 false).height = 440 := by
  obtain ⟨hA1, -, -⟩ := createAllowancePopup_some env approved mA pA hA
  obtain ⟨hL1, -, -⟩ := createNftListingPopup_some env approved mL td listing pL htd hdec hL
  obtain ⟨hH1, -, -⟩ := createHashSignaturePopup_some env approved mH pH hH
  refine ⟨hA1, hL1, hH1, ?_, ?_⟩
  · rintro ⟨h2, h3⟩
    rw [hL1, h2, h3]
  · simp only [getPopupPositions]
    norm_num

/-- C8 witness: the content-line counts at a concrete permit, order and
hash request under `envAll`. -/
theorem C8_content_lines_witness :
    createAllowancePopup envAll [] msgPermit = some popA
    ∧ msgOrder.data.typedData = some tdOrder
    ∧ (envAll.decodeNftListing tdOrder).listing = some listing23
    ∧ createNftListingPopup envAll [] msgOrder = some popL
    ∧ createHashSignaturePopup envAll [] msgHash64 = some popH
    ∧ (popA.contentLines = 2
      ∧ popL.contentLines = listing23.offer.length + listing23.consideration.length
      ∧ popH.contentLines = 0
      ∧ (listing23.offer.length = 2 ∧ listing23.consideration.length = 3 →
          popL.contentLines = 5)
      ∧ (getPopupPositions ⟨100, 50, 1000, 800⟩ 5 false).height = 440) :=
  ⟨by decide, rfl, rfl, by decide, by decide,
   C8_content_lines envAll [] msgPermit msgOrder msgHash64 tdOrder listing23
     popA popL popH ⟨100, 50, 1000, 800⟩ (by decide) rfl rfl (by decide) (by decide)⟩

/-- C9 counterexample: the popup created for a concrete prompting hash
signature request has NO `chainId` query parameter, so not every prompting
decision carries all five common parameters. -/
theorem C9_counterexample :
    (createHashSignaturePopup envAll [] msgHash64).map
        (fun p => (p.queryParams.map Prod.fst).contains "chainId") = some false := by
  decide

/-- C9 (amended): allowance and listing popup query strings contain the
parameters `type`, `requestId`, `chainId`, `hostname` and `bypassed`;
hash popup query strings contain `type`, `requestId`, `hostname` and
`bypassed` but no `chainId`. -/
theorem C9_query_params (env : Env) (approved : List String)
    (mA mL mH : Message) (td : TypedData) (listing : Listing)
    (pA pL pH : PopupRequest)
    (hA : createAllowancePopup env approved mA = some pA)
    (htd : mL.data.typedData = some td)
    (hdec : (env.decodeNftListing td).listing = some listing)
    (hL : createNftListingPopup env approved mL = some pL)
    (hH : createHashSignaturePopup env approved mH = some pH) :
    ((pA.queryParams.map Prod.fst).contains "type" = true
      ∧ (pA.queryParams.map Prod.fst).contains "requestId" = true
      ∧ (pA.queryParams.map Prod.fst).contains "chainId" = true
      ∧ (pA.queryParams.map Prod.fst).contains "hostname" = true
      ∧ (pA.queryParams.map Prod.fst).contains "bypassed" = true)
    ∧ ((pL.queryParams.map Prod.fst).contains "type" = true
      ∧ (pL.queryParams.map Prod.fst).contains "requestId" = true
      ∧ (pL.queryParams.map Prod.fst).contains "chainId" = true
      ∧ (pL.queryParams.map Prod.fst).contains "hostname" = true
      ∧ (pL.queryParams.map Prod.fst).contains "bypassed" = true)
    ∧ ((pH.queryParams.map Prod.fst).contains "type" = true
      ∧ (pH.queryParams.map Prod.fst).contains "requestId" = true
      ∧ (pH.queryParams.map Prod.fst).contains "hostname" = true
      ∧ (pH.queryParams.map Prod.fst).contains "bypassed" = true
      ∧ (pH.queryParams.map Prod.fst).contains "chainId" = false) := by
  obtain ⟨-, hA2, -⟩ := createAllowancePopup_some env approved mA pA hA
  obtain ⟨-, hL2, -⟩ := createNftListingPopup_some env approved mL td listing pL htd hdec hL
  obtain ⟨-, hH2, -⟩ := createHashSignaturePopup_some env approved mH pH hH
  rw [hA2, hL2, hH2]
  refine ⟨?_, ?_, ?_⟩ <;> refine ⟨?_, ?_, ?_, ?_, ?_⟩ <;> decide

/-- C9 witness: the amended query-parameter contract at concrete permit,
order and hash requests under `envAll`. -/
theorem C9_query_params_witness :
    createAllowancePopup envAll [] msgPermit = some popA
    ∧ msgOrder.data.typedData = some tdOrder
    ∧ (envAll.decodeNftListing tdOrder).listing = some listing23
    ∧ createNftListingPopup envAll [] msgOrder = some popL
    ∧ createHashSignaturePopup envAll [] msgHash64 = some popH
    ∧ (((popA.queryParams.map Prod.fst).contains "type" = true
      ∧ (popA.queryParams.map Prod.fst).contains "requestId" = true
      ∧ (popA.queryParams.map Prod.fst).contains "chainId" = true
      ∧ (popA.queryParams.map Prod.fst).contains "hostname" = true
      ∧ (popA.queryParams.map Prod.fst).contains "bypassed" = true)
    ∧ ((popL.queryParams.map Prod.fst).contains "type" = true
      ∧ (popL.queryParams.map Prod.fst).contains "requestId" = true
      ∧ (popL.queryParams.map Prod.fst).contains "chainId" = true
      ∧ (popL.queryParams.map Prod.fst).contains "hostname" = true
      ∧ (popL.queryParams.map Prod.fst).contains "bypassed" = true)
    ∧ ((popH.queryParams.map Prod.fst).contains "type" = true
      ∧ (popH.queryParams.map Prod.fst).contains "requestId" = true
      ∧ (popH.queryParams.map Prod.fst).contains "hostname" = true
      ∧ (popH.queryParams.map Prod.fst).contains "bypassed" = true
      ∧ (popH.queryParams.map Prod.fst).contains "chainId" = false)) :=
  ⟨by decide, rfl, rfl, by decide, by decide,
   C9_query_params envAll [] msgPermit msgOrder msgHash64 tdOrder listing23
     popA popL popH (by decide) rfl rfl (by decide) (by decide)⟩

/-- C10: every message that is neither a transaction message nor a
typed-signature message — whatever its shape — is dispatched to the hash
path, so its decision is exactly the hash evaluator's: it prompts iff the
hash-signature warning is enabled, the hostname is not on the hash
allow-list, the id is not already approved, and the stripped message is
64 characters long. -/
theorem C10_fallthrough_hash (env : Env) (approved : List String) (m : Message)
    (h1 : isTransactionMessage m = false) (h2 : isTypedSignatureMessage m = false) :
    dispatchPath m = DispatchPath.hash
    ∧ createPopup env approved m = createHashSignaturePopup env approved m
    ∧ (createPopup env approved m).isSome =
        (env.warnOnHashSignatures
          && !(env.hashSignatureAllowList.contains m.data.hostname)
          && !(approved.contains m.requestId)
          && ((stripFirst0x (jsStringOf m.data.message)).length == 64)) := by
  have hcp : createPopup env approved m = createHashSignaturePopup env approved m := by
    simp [createPopup, h1, h2]
  refine ⟨by simp [dispatchPath, h1, h2], hcp, ?_⟩
  rw [hcp]
  unfold createHashSignaturePopup
  by_cases hw : env.warnOnHashSignatures <;>
    by_cases hh : m.data.hostname ∈ env.hashSignatureAllowList <;>
      by_cases ha : m.requestId ∈ approved <;>
        by_cases hl : (stripFirst0x (jsStringOf m.data.message)).length = 64 <;>
          simp [hw, hh, ha, hl]

/-- C10 witness: the fall-through characterisation at a concrete message
with an unrecognised type tag. -/
theorem C10_fallthrough_hash_witness :
    isTransactionMessage msgGarbage = false
    ∧ isTypedSignatureMessage msgGarbage = false
    ∧ (dispatchPath msgGarbage = DispatchPath.hash
      ∧ createPopup envAll [] msgGarbage = createHashSignaturePopup envAll [] msgGarbage
      ∧ (createPopup envAll [] msgGarbage).isSome =
          (envAll.warnOnHashSignatures
            && !(envAll.hashSignatureAllowList.contains msgGarbage.data.hostname)
            && !(([] : List String).contains msgGarbage.requestId)
            && ((stripFirst0x (jsStringOf msgGarbage.data.message)).length == 64))) :=
  ⟨rfl, rfl, C10_fallthrough_hash envAll [] msgGarbage rfl rfl⟩

end BrowserExt
